import Mathlib

/-!
# Verification of the PPO balancer training orchestrator

Shallow embedding of `agents/ppo_balancer/train.py` (upkie): the curriculum
callback, the config-snapshot callback, the save-path search, the spine
spawn/teardown logic and the interrupt-safe final-save sequence, together
with theorems settling the specification claims about them.

Machine floats of the source are modelled by rationals; the filesystem is
modelled by a predicate on path strings; process-level effects are modelled
by explicit event traces and `Except`-valued state transitions.
-/

namespace UpkieTrain

/-! ## Curriculum callback (`InitRandomizationCallback`) -/

/-- `numpy.clip x lo hi`: `x` clamped into the interval `[lo, hi]`. -/
def clip (x lo hi : ℚ) : ℚ := min (max x lo) hi

/-- State of `InitRandomizationCallback` as set up by its `__init__`
(the `vec_env` member is passed separately to `on_step` below). -/
structure InitRandomizationCallback where
  key : String
  max_value : ℚ
  start_timestep : ℚ
  end_timestep : ℚ

/-- The `progress` local of `InitRandomizationCallback._on_step`:
`np.clip((self.num_timesteps - self.start_timestep) / self.end_timestep, 0.0, 1.0)`.
Note the source divides by `end_timestep`, not by
`end_timestep - start_timestep`. -/
def InitRandomizationCallback.progress
    (cb : InitRandomizationCallback) (num_timesteps : ℚ) : ℚ :=
  clip ((num_timesteps - cb.start_timestep) / cb.end_timestep) 0 1

/-- The `cur_value` local of `InitRandomizationCallback._on_step`:
`progress * self.max_value`. -/
def InitRandomizationCallback.cur_value
    (cb : InitRandomizationCallback) (num_timesteps : ℚ) : ℚ :=
  cb.progress num_timesteps * cb.max_value

/-- Init-randomization parameters held by one worker environment, keyed by
parameter name (the keyword argument of `update_init_rand`). -/
def WorkerParams := String → ℚ

/-- One worker's `update_init_rand(**{key: v})`: set parameter `key` to `v`. -/
def update_init_rand (w : WorkerParams) (key : String) (v : ℚ) : WorkerParams :=
  fun k => if k = key then v else w k

/-- `vec_env.env_method("update_init_rand", **{key: v})`: broadcast the update
to every member environment of the vectorized environment. -/
def env_method_update (ws : List WorkerParams) (key : String) (v : ℚ) :
    List WorkerParams :=
  ws.map (fun w => update_init_rand w key v)

/-- `InitRandomizationCallback._on_step`: compute the current curriculum value
and broadcast it to all workers; returns the updated worker states. -/
def InitRandomizationCallback.on_step (cb : InitRandomizationCallback)
    (num_timesteps : ℚ) (ws : List WorkerParams) : List WorkerParams :=
  env_method_update ws cb.key (cb.cur_value num_timesteps)

/-- The curriculum value as the specification words it:
`progress = clamp((s - start_step) / (end_step - start_step), 0, 1)` and
`value = progress * max_value`. Stated from the spec only, for comparison
with the source-derived `InitRandomizationCallback.cur_value`. -/
def specCurriculumValue (start_step end_step max_value s : ℚ) : ℚ :=
  clip ((s - start_step) / (end_step - start_step)) 0 1 * max_value

/-- A worker whose parameters are all zero, used for concrete instances. -/
def zeroWorker : WorkerParams := fun _ => 0

/-- Read the value of the pitch parameter from each worker of a pool. -/
def readPitch (ws : List WorkerParams) : List ℚ :=
  ws.map (fun w => w "pitch")

/-- A concrete callback with a nonzero start timestep: key `pitch`,
`max_value = 1`, `start_timestep = 50000`, `end_timestep = 100000`. -/
def cbNonzeroStart : InitRandomizationCallback :=
  { key := "pitch", max_value := 1, start_timestep := 50000,
    end_timestep := 100000 }

/-- A small concrete callback with a nonzero start timestep: key `pitch`,
`max_value = 1`, `start_timestep = 1`, `end_timestep = 2`. -/
def cbSmall : InitRandomizationCallback :=
  { key := "pitch", max_value := 1, start_timestep := 1, end_timestep := 2 }

/-- The pitch callback as registered by `train_policy` with the default
curriculum of the spec scenario: `start = 0`, `end = 100000`,
`max_value = 1/10`. -/
def cbDefault : InitRandomizationCallback :=
  { key := "pitch", max_value := 1/10, start_timestep := 0,
    end_timestep := 100000 }

/-! ## Config-snapshot callback (`SummaryWriterCallback`) -/

/-- Observable state of `SummaryWriterCallback`: the call counter `n_calls`
kept by the callback base class (incremented before each `_on_step`), and
the number of times the config snapshot has been written. -/
structure SummaryWriterCallback where
  n_calls : ℕ
  config_written : ℕ

/-- Initial callback state: the base class starts `n_calls` at 0 and no
config snapshot has been written. -/
def SummaryWriterCallback.init : SummaryWriterCallback :=
  { n_calls := 0, config_written := 0 }

/-- One invocation of the callback: the base class increments `n_calls`,
then `_on_step` returns early when `self.n_calls != 1` and otherwise writes
the config snapshot (to the TensorBoard sink and the yaml file). -/
def SummaryWriterCallback.on_step (cb : SummaryWriterCallback) :
    SummaryWriterCallback :=
  let cb1 : SummaryWriterCallback :=
    { cb with n_calls := cb.n_calls + 1 }
  if cb1.n_calls ≠ 1 then cb1
  else { cb1 with config_written := cb1.config_written + 1 }

/-- The callback state after being invoked on each of `t` timesteps. -/
def sw_run : ℕ → SummaryWriterCallback
  | 0 => SummaryWriterCallback.init
  | t + 1 => (sw_run t).on_step

/-! ## Save-path search (`find_save_path`) -/

/-- `path_for_iter` inside `find_save_path`:
the string `{training_dir}/{policy_name}_{nb_iter}`. -/
def path_for_iter (training_dir policy_name : String) (nb_iter : ℕ) : String :=
  training_dir ++ "/" ++ policy_name ++ "_" ++ toString nb_iter

/-- The while loop of `find_save_path`: starting from `nb_iter`, increment
while the path exists. `file_exists` models `os.path.exists`; the `fuel`
argument bounds the loop, which terminates in the source because the
filesystem holds finitely many paths. -/
def find_save_path_loop (file_exists : String → Bool)
    (training_dir policy_name : String) : ℕ → ℕ → ℕ
  | nb_iter, 0 => nb_iter
  | nb_iter, fuel + 1 =>
    if file_exists (path_for_iter training_dir policy_name nb_iter) then
      find_save_path_loop file_exists training_dir policy_name (nb_iter + 1) fuel
    else nb_iter

/-- `find_save_path(training_dir, policy_name)`: the first path of the form
`{training_dir}/{policy_name}_{n}` that does not exist, searching upward
from `n = 1`. -/
def find_save_path (file_exists : String → Bool)
    (training_dir policy_name : String) (fuel : ℕ) : String :=
  path_for_iter training_dir policy_name
    (find_save_path_loop file_exists training_dir policy_name 1 fuel)

/-- A concrete filesystem in which `dir/policy_x_1` and `dir/policy_x_2`
already exist. -/
def fsTwoRuns : String → Bool :=
  fun s => s == "dir/policy_x_1" || s == "dir/policy_x_2"

/-! ## Events of the orchestrator, spawn and teardown -/

/-- Observable events of the orchestrator and of one worker's lifecycle. -/
inductive Event where
  /-- `os.fork()` is called in `init_env._init`. -/
  | forkCall
  /-- the divisibility assertion of `get_bullet_argv` fails. -/
  | divCheckFail
  /-- the child replaces itself with the spine binary (`os.execvp`). -/
  | execSpine
  /-- `CheckpointCallback` persists a periodic checkpoint at call `n`. -/
  | saveCheckpoint (n : ℕ)
  /-- `SummaryWriterCallback` writes the config snapshot. -/
  | writeConfig
  /-- `InitRandomizationCallback` broadcasts parameter `key`. -/
  | broadcastInitRand (key : String)
  /-- the `except KeyboardInterrupt` handler logs the interruption. -/
  | logInterrupted
  /-- `policy.save(f"{save_path}/final.zip")`: the final artifact. -/
  | saveFinal
  /-- `policy.env.close()`: pool close, cascading worker teardown. -/
  | closePool
  /-- `os.kill(pid, signal.SIGINT)` on the spine child. -/
  | signalSpine (pid : ℕ)
  /-- `os.waitpid(pid, 0)` on the spine child. -/
  | waitSpine (pid : ℕ)
  /-- the pre-patch `close` of the wrapped environment runs (releases the
  shared-memory channel). -/
  | prepatchClose
  deriving DecidableEq

/-! ## Spine spawn (`get_bullet_argv`, `init_env._init`) -/

/-- The frequency settings read from `EnvSettings` (floats with integral
values in the source configuration; modelled as naturals). -/
structure EnvSettings where
  agent_frequency : ℕ
  spine_frequency : ℕ

/-- `get_bullet_argv(shm_name, show)`: asserts that the spine frequency is
an integer multiple of the agent frequency, then builds the spine's argv;
`none` models the failing assertion. -/
def get_bullet_argv (es : EnvSettings) (shm_name : String) (show_flag : Bool) :
    Option (List String) :=
  if es.spine_frequency % es.agent_frequency = 0 then
    some (["--shm-name", shm_name,
           "--nb-substeps", toString (es.spine_frequency / es.agent_frequency),
           "--spine-frequency", toString es.spine_frequency]
          ++ (if show_flag then ["--show"] else []))
  else none

/-- Events of the child branch of `init_env._init` (the code under
`if pid == 0`): compute `get_bullet_argv` — whose assertion may fail —
then exec the spine binary. -/
def init_child_trace (es : EnvSettings) (shm_name : String)
    (show_flag : Bool) : List Event :=
  match get_bullet_argv es shm_name show_flag with
  | some _ => [Event.execSpine]
  | none => [Event.divCheckFail]

/-- Linearized event trace of `init_env._init` through the child branch:
`os.fork()` runs first, and only then does the child evaluate
`get_bullet_argv` (divisibility check included). -/
def init_trace (es : EnvSettings) (shm_name : String)
    (show_flag : Bool) : List Event :=
  Event.forkCall :: init_child_trace es shm_name show_flag

/-- Settings whose spine frequency is not a multiple of the agent
frequency: agent 2 Hz, spine 7 Hz. -/
def esBad : EnvSettings := { agent_frequency := 2, spine_frequency := 7 }

/-! ## Training loop and final-save sequence (`train_policy`) -/

/-- The `save_freq` argument of `CheckpointCallback` in `train_policy`:
`max(210_000 // nb_envs, 1_000)`. -/
def save_freq (nb_envs : ℕ) : ℕ := max (210000 / nb_envs) 1000

/-- Events emitted by the registered callbacks on call number `n`
(1-based): `CheckpointCallback` saves when `n_calls % save_freq == 0`,
`SummaryWriterCallback` writes the config snapshot on the first call, and
the three `InitRandomizationCallback`s broadcast their parameters. -/
def step_events (nb_envs : ℕ) (n : ℕ) : List Event :=
  (if n % save_freq nb_envs = 0 then [Event.saveCheckpoint n] else [])
    ++ (if n = 1 then [Event.writeConfig] else [])
    ++ [Event.broadcastInitRand "pitch", Event.broadcastInitRand "v_x",
        Event.broadcastInitRand "omega_y"]

/-- Callback events over calls `1, ..., t` of the training loop. -/
def stepsTrace (nb_envs t : ℕ) : List Event :=
  (List.range t).flatMap (fun i => step_events nb_envs (i + 1))

/-- Python exceptions relevant to the orchestrator. -/
inductive PyExc where
  | keyboardInterrupt
  deriving DecidableEq

/-- Result of running a block of Python code: the events it emitted, and
the exception it raised — `none` when it returned normally. -/
structure PyRun where
  events : List Event
  raised : Option PyExc

/-- `policy.learn(total_timesteps, callback=[...])`: runs the callbacks for
`total_timesteps` calls; when a user interrupt arrives at call
`k ≤ total_timesteps` (`interrupt_at = some k`), the in-flight step
completes and the call raises `KeyboardInterrupt`. -/
def policy_learn (nb_envs total_timesteps : ℕ) (interrupt_at : Option ℕ) :
    PyRun :=
  match interrupt_at with
  | none => { events := stepsTrace nb_envs total_timesteps, raised := none }
  | some k =>
    if k ≤ total_timesteps then
      { events := stepsTrace nb_envs k, raised := some PyExc.keyboardInterrupt }
    else
      { events := stepsTrace nb_envs total_timesteps, raised := none }

/-- `try: body except KeyboardInterrupt: <handler events>`: a raised
`KeyboardInterrupt` is caught and the handler runs; it does not propagate. -/
def tryExceptKI (body : PyRun) (handlerEvents : List Event) : PyRun :=
  match body.raised with
  | some PyExc.keyboardInterrupt =>
    { events := body.events ++ handlerEvents, raised := none }
  | none => { events := body.events, raised := none }

/-- Sequencing: run `a`; when it returned normally, emit `moreEvents`. -/
def pySeq (a : PyRun) (moreEvents : List Event) : PyRun :=
  match a.raised with
  | some e => { events := a.events, raised := some e }
  | none => { events := a.events ++ moreEvents, raised := none }

/-- The tail of `train_policy`: the training loop wrapped in
`try ... except KeyboardInterrupt`, followed unconditionally by
`policy.save(final.zip)` and then `policy.env.close()`. -/
def train_policy_run (nb_envs total_timesteps : ℕ)
    (interrupt_at : Option ℕ) : PyRun :=
  pySeq (tryExceptKI (policy_learn nb_envs total_timesteps interrupt_at)
          [Event.logInterrupted])
        [Event.saveFinal, Event.closePool]

/-! ## Worker teardown (`close_monkeypatch`) -/

/-- State of one worker: the spine child's pid, whether that process is
still live (spawned and not yet reaped), and whether the pre-patch close of
the wrapped environment has run. -/
structure SpineEnv where
  pid : ℕ
  child_running : Bool
  wrapped_closed : Bool

/-- `os.kill(pid, signal.SIGINT)`: raises `ProcessLookupError` when the
process no longer exists (already reaped). -/
def os_kill (e : SpineEnv) : Except String SpineEnv :=
  if e.child_running then Except.ok e
  else Except.error "ProcessLookupError"

/-- `os.waitpid(pid, 0)`: blocks until the child has exited and reaps it;
raises `ChildProcessError` when there is no such child. -/
def os_waitpid (e : SpineEnv) : Except String SpineEnv :=
  if e.child_running then Except.ok { e with child_running := false }
  else Except.error "ChildProcessError"

/-- `close_monkeypatch` from `init_env._init`: signal the spine child,
wait for it to exit, then run the pre-patch close; returns the new state
and the events in execution order. -/
def close_monkeypatch (e : SpineEnv) :
    Except String (SpineEnv × List Event) :=
  match os_kill e with
  | Except.error msg => Except.error msg
  | Except.ok e1 =>
    match os_waitpid e1 with
    | Except.error msg => Except.error msg
    | Except.ok e2 =>
      Except.ok ({ e2 with wrapped_closed := true },
        [Event.signalSpine e.pid, Event.waitSpine e.pid, Event.prepatchClose])

/-- Two consecutive calls of `close_monkeypatch` on the same environment. -/
def close_twice (e : SpineEnv) : Except String (SpineEnv × List Event) :=
  match close_monkeypatch e with
  | Except.ok (e1, _) => close_monkeypatch e1
  | Except.error msg => Except.error msg

/-- A freshly constructed worker: spine child with pid 42 live, wrapped
resources not yet released. -/
def spineEnv0 : SpineEnv :=
  { pid := 42, child_running := true, wrapped_closed := false }

/-! ## Random word drawing (`get_random_word`) -/

/-- Python `str.isalnum`: true when the string is non-empty and every
character is alphanumeric. -/
def pyIsAlnum (s : String) : Bool :=
  !s.isEmpty && s.all Char.isAlphanum

/-- The set of values Python's `random.randint(a, b)` can return: the
inclusive range `[a, b]`. -/
def randint_possible (a b i : ℕ) : Prop := a ≤ i ∧ i ≤ b

instance (a b i : ℕ) : Decidable (randint_possible a b i) :=
  inferInstanceAs (Decidable (a ≤ i ∧ i ≤ b))

/-- The body of `get_random_word` after the dictionary has been read, as a
function of the drawn index: index `words`, and while the entry is not
alphanumeric advance cyclically. `Except.error "IndexError"` models an
out-of-bounds access; the fuel bounds the while loop. -/
def get_random_word_from (words : List String) (word_index : ℕ) :
    ℕ → Except String String
  | 0 => Except.error "loop fuel exhausted"
  | fuel + 1 =>
    match words[word_index]? with
    | none => Except.error "IndexError"
    | some w =>
      if pyIsAlnum w then Except.ok w
      else get_random_word_from words ((word_index + 1) % words.length) fuel

/-- A concrete two-word dictionary. -/
def wordsTwo : List String := ["ab", "cd"]

/-! ## Helper lemmas on `clip` -/

lemma clip_nonneg (x : ℚ) : 0 ≤ clip x 0 1 :=
  le_min (le_max_right x 0) zero_le_one

lemma clip_le_one (x : ℚ) : clip x 0 1 ≤ 1 :=
  min_le_right _ _

lemma clip_mono {x y : ℚ} (h : x ≤ y) : clip x 0 1 ≤ clip y 0 1 :=
  min_le_min (max_le_max h le_rfl) le_rfl

lemma clip_of_one_le {x : ℚ} (h : 1 ≤ x) : clip x 0 1 = 1 := by
  unfold clip
  rw [max_eq_left (le_trans zero_le_one h), min_eq_right h]

lemma clip_zero : clip 0 0 1 = 0 := by
  norm_num [clip]

/-! ## C2: curriculum formula and broadcast -/

/-- C2, counterexample: the scheduler does not compute
`clamp((s - start_step) / (end_step - start_step), 0, 1) * max_value`.
For the parameter with `start_step = 50000`, `end_step = 100000`,
`max_value = 1`, at step `s = 100000` the value broadcast to the single
worker is `1/2` (the code divides by `end_step`), not the `1` demanded by
the claimed formula. -/
theorem curriculum_formula_counterexample :
    readPitch (InitRandomizationCallback.on_step cbNonzeroStart 100000
        [zeroWorker])
      ≠ [specCurriculumValue 50000 100000 1 100000] := by
  have h1 : cbNonzeroStart.cur_value 100000 = 1/2 := by
    norm_num [InitRandomizationCallback.cur_value,
      InitRandomizationCallback.progress, cbNonzeroStart, clip, max_def,
      min_def]
  have h2 : specCurriculumValue 50000 100000 1 100000 = 1 := by
    norm_num [specCurriculumValue, clip, max_def, min_def]
  have hk : cbNonzeroStart.key = "pitch" := rfl
  have h3 : readPitch (InitRandomizationCallback.on_step cbNonzeroStart 100000
      [zeroWorker]) = [1/2] := by
    simp [InitRandomizationCallback.on_step, env_method_update, readPitch,
      update_init_rand, h1, hk]
  rw [h3, h2]
  norm_num

/-- C2, amended: for every tracked parameter the scheduler computes
`progress = clamp((s - start_timestep) / end_timestep, 0, 1)` and
broadcasts `value = progress * max_value` to every worker; this agrees
with the claimed `clamp((s - start_step) / (end_step - start_step), 0, 1)`
exactly when `start_timestep = 0`, which holds for every parameter
registered by `train_policy`. -/
theorem curriculum_broadcast_zero_start (cb : InitRandomizationCallback)
    (s : ℚ) (ws : List WorkerParams) (h : cb.start_timestep = 0) :
    cb.on_step s ws
      = env_method_update ws cb.key
          (specCurriculumValue cb.start_timestep cb.end_timestep
            cb.max_value s) := by
  simp [InitRandomizationCallback.on_step, InitRandomizationCallback.cur_value,
    InitRandomizationCallback.progress, specCurriculumValue, h, sub_zero]

/-- C2, witness: the default pitch parameter (`start = 0`, `end = 100000`,
`max = 1/10`) at step 500. -/
theorem curriculum_broadcast_zero_start_witness :
    InitRandomizationCallback.on_step cbDefault 500 [zeroWorker]
      = env_method_update [zeroWorker] "pitch"
          (specCurriculumValue 0 100000 (1/10) 500) :=
  curriculum_broadcast_zero_start cbDefault 500 [zeroWorker] rfl

/-! ## C3: shape of the curriculum value -/

/-- C3, counterexample: the curriculum value does not reach `max_value` at
`s = end_step` in general. For the parameter with `start_timestep = 1`,
`end_timestep = 2`, `max_value = 1`, the value at `s = 2` is `1/2`. -/
theorem curriculum_value_end_counterexample :
    cbSmall.cur_value 2 ≠ cbSmall.max_value := by
  norm_num [InitRandomizationCallback.cur_value,
    InitRandomizationCallback.progress, cbSmall, clip, max_def, min_def]

/-- C3, amended: for every tracked parameter with `0 ≤ max_value` and
`0 < end_timestep`, the curriculum value is monotonically non-decreasing in
the step count and lies in `[0, max_value]`; it equals `0` at
`s = start_timestep` and is pinned at `max_value` for every
`s ≥ start_timestep + end_timestep`; it already equals `max_value` at
`s = end_timestep` when `start_timestep = 0` (as in every registered
parameter). -/
theorem curriculum_value_shape (cb : InitRandomizationCallback)
    (hmax : 0 ≤ cb.max_value) (hend : 0 < cb.end_timestep) :
    (∀ s t, s ≤ t → cb.cur_value s ≤ cb.cur_value t) ∧
    (∀ s, 0 ≤ cb.cur_value s ∧ cb.cur_value s ≤ cb.max_value) ∧
    cb.cur_value cb.start_timestep = 0 ∧
    (∀ s, cb.start_timestep + cb.end_timestep ≤ s →
      cb.cur_value s = cb.max_value) ∧
    (cb.start_timestep = 0 → cb.cur_value cb.end_timestep = cb.max_value) := by
  have hcv : ∀ s : ℚ, cb.cur_value s
      = clip ((s - cb.start_timestep) / cb.end_timestep) 0 1
          * cb.max_value := fun s => rfl
  have hpin : ∀ s, cb.start_timestep + cb.end_timestep ≤ s →
      cb.cur_value s = cb.max_value := by
    intro s hs
    have h1 : (1 : ℚ) ≤ (s - cb.start_timestep) / cb.end_timestep := by
      rw [le_div_iff₀ hend]
      linarith
    rw [hcv, clip_of_one_le h1, one_mul]
  refine ⟨?_, ?_, ?_, hpin, ?_⟩
  · intro s t hst
    rw [hcv, hcv]
    refine mul_le_mul_of_nonneg_right (clip_mono ?_) hmax
    exact (div_le_div_iff_of_pos_right hend).mpr (by linarith)
  · intro s
    rw [hcv]
    constructor
    · exact mul_nonneg (clip_nonneg _) hmax
    · calc clip ((s - cb.start_timestep) / cb.end_timestep) 0 1
            * cb.max_value
          ≤ 1 * cb.max_value :=
            mul_le_mul_of_nonneg_right (clip_le_one _) hmax
        _ = cb.max_value := one_mul _
  · rw [hcv, sub_self, zero_div, clip_zero, zero_mul]
  · intro h0
    exact hpin cb.end_timestep (by rw [h0]; linarith)

/-- C3, witness: the default pitch parameter satisfies the amended shape;
in particular its value at its start timestep is `0`. -/
theorem curriculum_value_shape_witness :
    cbDefault.cur_value cbDefault.start_timestep = 0 :=
  (curriculum_value_shape cbDefault (by norm_num [cbDefault])
    (by norm_num [cbDefault])).2.2.1

/-! ## C4: config snapshot written exactly once -/

lemma sw_run_eq : ∀ t, sw_run t
    = { n_calls := t, config_written := min t 1 }
  | 0 => by simp [sw_run, SummaryWriterCallback.init]
  | t + 1 => by
    rw [sw_run, sw_run_eq t]
    cases t with
    | zero => simp [SummaryWriterCallback.on_step]
    | succ k =>
      simp only [SummaryWriterCallback.on_step]
      have h1 : k + 1 + 1 ≠ 1 := by omega
      simp [h1]

/-- C4: for every run of `T > 1` timesteps, the config snapshot is written
exactly once even though the callback is invoked on every timestep; the
write happens on the first invocation (the count is already 1 after one
call) and the count stays 1 at every later call up to `T`. The one-shot
decision is the `n_calls != 1` comparison visible in
`SummaryWriterCallback.on_step`. -/
theorem config_snapshot_once (T : ℕ) (_hT : 1 < T) :
    (sw_run 1).config_written = 1 ∧
    (∀ t, 1 ≤ t → t ≤ T → (sw_run t).config_written = 1) ∧
    (sw_run T).n_calls = T := by
  refine ⟨by simp [sw_run_eq], ?_, by simp [sw_run_eq]⟩
  intro t ht _
  rw [sw_run_eq]
  simpa using ht

/-- C4, witness: a run of 5 timesteps writes the config snapshot once. -/
theorem config_snapshot_once_witness : (sw_run 5).config_written = 1 :=
  (config_snapshot_once 5 (by norm_num)).2.1 5 (by norm_num) (by norm_num)

/-! ## C5: first free save path -/

lemma find_save_path_loop_skipped (fe : String → Bool) (d p : String) :
    ∀ fuel n m, n ≤ m →
      m < find_save_path_loop fe d p n fuel →
      fe (path_for_iter d p m) = true
  | 0, n, m, hnm, hm => by
    simp only [find_save_path_loop] at hm
    omega
  | fuel + 1, n, m, hnm, hm => by
    rw [find_save_path_loop] at hm
    by_cases hfe : fe (path_for_iter d p n) = true
    · rw [if_pos hfe] at hm
      rcases eq_or_lt_of_le hnm with h | h
      · exact h ▸ hfe
      · exact find_save_path_loop_skipped fe d p fuel (n + 1) m h hm
    · rw [if_neg hfe] at hm
      omega

lemma find_save_path_loop_stops (fe : String → Bool) (d p : String) :
    ∀ fuel n,
      (∃ k, n ≤ k ∧ k < n + fuel ∧ fe (path_for_iter d p k) = false) →
      fe (path_for_iter d p (find_save_path_loop fe d p n fuel)) = false
  | 0, n, h => by
    obtain ⟨k, hk1, hk2, _⟩ := h
    omega
  | fuel + 1, n, h => by
    obtain ⟨k, hk1, hk2, hk3⟩ := h
    rw [find_save_path_loop]
    by_cases hfe : fe (path_for_iter d p n) = true
    · rw [if_pos hfe]
      refine find_save_path_loop_stops fe d p fuel (n + 1) ⟨k, ?_, ?_, hk3⟩
      · rcases eq_or_lt_of_le hk1 with h | h
        · rw [← h] at hk3; rw [hfe] at hk3; cases hk3
        · omega
      · omega
    · rw [if_neg hfe]
      simpa using hfe

lemma find_save_path_loop_ge (fe : String → Bool) (d p : String) :
    ∀ fuel n, n ≤ find_save_path_loop fe d p n fuel
  | 0, n => le_refl n
  | fuel + 1, n => by
    rw [find_save_path_loop]
    by_cases hfe : fe (path_for_iter d p n) = true
    · rw [if_pos hfe]
      exact le_trans (Nat.le_succ n) (find_save_path_loop_ge fe d p fuel (n + 1))
    · rw [if_neg hfe]

/-- C5: `find_save_path(training_dir, policy_name)` returns the first path
`{training_dir}/{policy_name}_{n}` that does not exist, with `n` starting
at 1 and incremented while the path exists (assuming some path within the
loop bound is free, which holds on a finite filesystem); in particular,
with `dir/policy_x_1` and `dir/policy_x_2` existing it returns
`dir/policy_x_3`. -/
theorem find_save_path_first_free (fe : String → Bool) (d p : String)
    (fuel : ℕ)
    (h : ∃ k, 1 ≤ k ∧ k < 1 + fuel ∧ fe (path_for_iter d p k) = false) :
    (∃ n, 1 ≤ n ∧
      find_save_path fe d p fuel = path_for_iter d p n ∧
      fe (path_for_iter d p n) = false ∧
      ∀ m, 1 ≤ m → m < n → fe (path_for_iter d p m) = true) ∧
    find_save_path fsTwoRuns "dir" "policy_x" 3 = "dir/policy_x_3" := by
  constructor
  · refine ⟨find_save_path_loop fe d p 1 fuel,
      find_save_path_loop_ge fe d p fuel 1, rfl,
      find_save_path_loop_stops fe d p fuel 1 h, ?_⟩
    intro m hm1 hm2
    exact find_save_path_loop_skipped fe d p fuel 1 m hm1 hm2
  · decide

/-- C5, witness: concrete filesystem with `dir/policy_x_1` and
`dir/policy_x_2` existing. -/
theorem find_save_path_first_free_witness :
    (∃ n, 1 ≤ n ∧
      find_save_path fsTwoRuns "dir" "policy_x" 3
        = path_for_iter "dir" "policy_x" n ∧
      fsTwoRuns (path_for_iter "dir" "policy_x" n) = false ∧
      ∀ m, 1 ≤ m → m < n → fsTwoRuns (path_for_iter "dir" "policy_x" m)
        = true) ∧
    find_save_path fsTwoRuns "dir" "policy_x" 3 = "dir/policy_x_3" :=
  find_save_path_first_free fsTwoRuns "dir" "policy_x" 3 ⟨3, by decide⟩

/-! ## C6: placement of the frequency-divisibility check -/

/-- C6, counterexample: with agent frequency 2 and spine frequency 7 (not
an integer multiple), `init_env._init` calls `os.fork()` first and only
then does the divisibility assertion fail, inside the child — the fork
does occur before the check fails, so the error is not detected before a
worker is spawned. -/
theorem div_check_after_fork_counterexample :
    init_trace esBad "/word" false = [Event.forkCall, Event.divCheckFail] ∧
    (init_trace esBad "/word" false).indexOf Event.forkCall
      < (init_trace esBad "/word" false).indexOf Event.divCheckFail := by
  decide

/-- C6, amended: for every configuration in which the spine frequency is
not an integer multiple of the agent frequency, the divisibility assertion
fails in the spawned child process, strictly after `os.fork()` and before
the exec of the spine binary; the failure is not detected before the fork. -/
theorem div_check_fails_in_child (es : EnvSettings) (shm : String)
    (sf : Bool) (h : es.spine_frequency % es.agent_frequency ≠ 0) :
    init_trace es shm sf = [Event.forkCall, Event.divCheckFail] := by
  simp [init_trace, init_child_trace, get_bullet_argv, h]

/-- C6, witness: the amended claim at agent 2 Hz, spine 7 Hz. -/
theorem div_check_fails_in_child_witness :
    init_trace esBad "/word2" true = [Event.forkCall, Event.divCheckFail] :=
  div_check_fails_in_child esBad "/word2" true (by decide)

/-! ## C7: teardown order on close -/

/-- C7: closing an environment whose spine child is live performs, in this
order, (a) `os.kill` on the child, (b) `os.waitpid` blocking until it has
exited, and (c) only then the pre-patch close releasing the wrapped
resources; the resulting state has the child reaped and the wrapped
resources released. -/
theorem close_order_signal_wait_release (e : SpineEnv)
    (h : e.child_running = true) :
    close_monkeypatch e = Except.ok
      ({ pid := e.pid, child_running := false, wrapped_closed := true },
       [Event.signalSpine e.pid, Event.waitSpine e.pid,
        Event.prepatchClose]) := by
  simp [close_monkeypatch, os_kill, os_waitpid, h]

/-- C7, witness: the freshly constructed worker with pid 42. -/
theorem close_order_signal_wait_release_witness :
    close_monkeypatch spineEnv0 = Except.ok
      ({ pid := 42, child_running := false, wrapped_closed := true },
       [Event.signalSpine 42, Event.waitSpine 42, Event.prepatchClose]) :=
  close_order_signal_wait_release spineEnv0 rfl

/-! ## C8: double close -/

/-- C8, counterexample: calling close a second time after a first
successful close is not safe — the monkeypatched close re-runs `os.kill`
on the already-reaped pid, which surfaces a `ProcessLookupError`. -/
theorem second_close_error_counterexample :
    close_twice spineEnv0 = Except.error "ProcessLookupError" := rfl

/-- C8, amended: for every environment, after a first successful close a
second call of the monkeypatched close re-attempts the interrupt signal on
the already-reaped child and raises `ProcessLookupError`; the close is not
idempotent. -/
theorem second_close_raises (e e' : SpineEnv) (tr : List Event)
    (h : close_monkeypatch e = Except.ok (e', tr)) :
    close_monkeypatch e' = Except.error "ProcessLookupError" := by
  by_cases hc : e.child_running
  · simp only [close_monkeypatch, os_kill, os_waitpid, hc, if_pos,
      if_true] at h
    obtain ⟨he', _⟩ := Prod.mk.injEq .. ▸ (Except.ok.injEq .. ▸ h)
    simp [close_monkeypatch, os_kill, ← he']
  · simp [close_monkeypatch, os_kill, hc] at h

/-- C8, witness: the worker with pid 42, closed once then closed again. -/
theorem second_close_raises_witness :
    close_monkeypatch
        { pid := 42, child_running := false, wrapped_closed := true }
      = Except.error "ProcessLookupError" :=
  second_close_raises spineEnv0
    { pid := 42, child_running := false, wrapped_closed := true }
    [Event.signalSpine 42, Event.waitSpine 42, Event.prepatchClose]
    rfl

/-! ## Step-trace membership lemmas -/

lemma saveCheckpoint_mem_step_events {nb n m : ℕ}
    (h : Event.saveCheckpoint m ∈ step_events nb n) :
    n % save_freq nb = 0 ∧ m = n := by
  unfold step_events at h
  split_ifs at h <;> simp_all

lemma saveFinal_not_mem_step_events (nb n : ℕ) :
    Event.saveFinal ∉ step_events nb n := by
  unfold step_events
  split_ifs <;> simp

lemma closePool_not_mem_step_events (nb n : ℕ) :
    Event.closePool ∉ step_events nb n := by
  unfold step_events
  split_ifs <;> simp

lemma saveFinal_not_mem_stepsTrace (nb t : ℕ) :
    Event.saveFinal ∉ stepsTrace nb t := by
  rw [stepsTrace]
  intro h
  obtain ⟨i, _, hstep⟩ := List.mem_flatMap.mp h
  exact saveFinal_not_mem_step_events nb (i + 1) hstep

lemma closePool_not_mem_stepsTrace (nb t : ℕ) :
    Event.closePool ∉ stepsTrace nb t := by
  rw [stepsTrace]
  intro h
  obtain ⟨i, _, hstep⟩ := List.mem_flatMap.mp h
  exact closePool_not_mem_step_events nb (i + 1) hstep

lemma policy_learn_events (nb T : ℕ) (ia : Option ℕ) :
    ∃ t, (policy_learn nb T ia).events = stepsTrace nb t := by
  cases ia with
  | none => exact ⟨T, rfl⟩
  | some k =>
    by_cases h : k ≤ T
    · exact ⟨k, by simp [policy_learn, h]⟩
    · exact ⟨T, by simp [policy_learn, h]⟩

/-! ## C1: interrupt-safe final save, then pool close -/

/-- C1: for every run — whatever the worker count, the timestep budget and
whether/when a user interrupt arrives — `train_policy` never propagates the
`KeyboardInterrupt` as a run failure, its trace ends with the final policy
save immediately followed by the pool close (so the pool close is strictly
after the final save), no final save or pool close happens earlier, and
when the loop was interrupted the interrupt is caught (its handler runs)
strictly before the final save. -/
theorem interrupt_safe_final_save (nb T : ℕ) (ia : Option ℕ) :
    (train_policy_run nb T ia).raised = none ∧
    ∃ pre, (train_policy_run nb T ia).events
        = pre ++ [Event.saveFinal, Event.closePool] ∧
      Event.saveFinal ∉ pre ∧ Event.closePool ∉ pre ∧
      ((policy_learn nb T ia).raised = some PyExc.keyboardInterrupt →
        Event.logInterrupted ∈ pre) := by
  obtain ⟨t, ht⟩ := policy_learn_events nb T ia
  have hsf : Event.saveFinal ∉ (policy_learn nb T ia).events := by
    rw [ht]; exact saveFinal_not_mem_stepsTrace nb t
  have hcp : Event.closePool ∉ (policy_learn nb T ia).events := by
    rw [ht]; exact closePool_not_mem_stepsTrace nb t
  cases hr : (policy_learn nb T ia).raised with
  | none =>
    refine ⟨?_, (policy_learn nb T ia).events, ?_, hsf, hcp, ?_⟩
    · simp [train_policy_run, pySeq, tryExceptKI, hr]
    · simp [train_policy_run, pySeq, tryExceptKI, hr]
    · intro hcontra
      cases hcontra
  | some e =>
    cases e
    refine ⟨?_,
      (policy_learn nb T ia).events ++ [Event.logInterrupted], ?_, ?_, ?_, ?_⟩
    · simp [train_policy_run, pySeq, tryExceptKI, hr]
    · simp [train_policy_run, pySeq, tryExceptKI, hr]
    · simp [hsf]
    · simp [hcp]
    · intro _
      simp

/-- C1, witness: one worker, a 5-step budget, interrupted at step 3. -/
theorem interrupt_safe_final_save_witness :
    (train_policy_run 1 5 (some 3)).raised = none ∧
    ∃ pre, (train_policy_run 1 5 (some 3)).events
        = pre ++ [Event.saveFinal, Event.closePool] ∧
      Event.saveFinal ∉ pre ∧ Event.closePool ∉ pre ∧
      ((policy_learn 1 5 (some 3)).raised = some PyExc.keyboardInterrupt →
        Event.logInterrupted ∈ pre) :=
  interrupt_safe_final_save 1 5 (some 3)

/-! ## C9: checkpoint interval -/

/-- C9: for every worker count `nb_envs ≥ 1`, the periodic checkpoint
interval handed to `CheckpointCallback` equals
`max(210000 / nb_envs, 1000)`; at `nb_envs = 1` it is 210000, and a run of
`total_timesteps = 1000` emits no periodic checkpoint at all. -/
theorem checkpoint_interval_no_periodic (nb : ℕ) (_h : 1 ≤ nb) :
    save_freq nb = max (210000 / nb) 1000 ∧
    save_freq 1 = 210000 ∧
    ∀ m, Event.saveCheckpoint m ∉ (train_policy_run 1 1000 none).events := by
  refine ⟨rfl, by norm_num [save_freq], ?_⟩
  intro m hm
  have hev : (train_policy_run 1 1000 none).events
      = stepsTrace 1 1000 ++ [Event.saveFinal, Event.closePool] := by
    simp [train_policy_run, pySeq, tryExceptKI, policy_learn]
  rw [hev] at hm
  rcases List.mem_append.mp hm with hm | hm
  · rw [stepsTrace] at hm
    obtain ⟨i, hi, hstep⟩ := List.mem_flatMap.mp hm
    obtain ⟨hmod, _⟩ := saveCheckpoint_mem_step_events hstep
    have hi1000 : i < 1000 := List.mem_range.mp hi
    have hsf1 : save_freq 1 = 210000 := by norm_num [save_freq]
    rw [hsf1] at hmod
    omega
  · simp at hm

/-- C9, witness: two workers give an interval of `max(105000, 1000)`. -/
theorem checkpoint_interval_no_periodic_witness :
    save_freq 2 = max (210000 / 2) 1000 :=
  (checkpoint_interval_no_periodic 2 (by norm_num)).1

/-! ## C10: the random word index can be out of bounds -/

/-- C10: `get_random_word` draws `random.randint(0, len(words))`, whose
inclusive upper bound makes `len(words)` a possible draw; at that draw the
very first indexing of the word list is out of bounds (an `IndexError`),
so the index is not always a valid index and the function does not always
return a word — the claim describes the clear intent, and the code has an
off-by-one slip. Shown on the two-word dictionary. -/
theorem randint_draw_can_be_length :
    randint_possible 0 wordsTwo.length wordsTwo.length ∧
    get_random_word_from wordsTwo wordsTwo.length 10
      = Except.error "IndexError" := by
  constructor
  · exact ⟨Nat.zero_le _, le_refl _⟩
  · rfl

end UpkieTrain
